import Mathlib

/-!
Shallow embedding of the transfer-event processing pipeline of `ark-project`
(`src/events/transfer_processor.rs`).  External collaborators (the ledger RPC
client, the HTTP client, the key-value store) are modelled as oracles packaged
in an `Env`; every external call and persistence write performed by the code is
recorded as an `Effect`, so the theorems can talk about what the pipeline reads
and writes.  Rust `Result`/`Option` become `Except`/`Option`; a Rust `unwrap`
on a failed value becomes the `panicked` outcome.
-/

namespace ArkTransfer

/-- Model of a parsed `serde_json::Value` (integers only for numbers, which is
all the code touches: `as_u64` on the block timestamp). -/
inductive Json where
  | null : Json
  | bool (b : Bool) : Json
  | num (n : Int) : Json
  | str (s : String) : Json
  | arr (elems : List Json) : Json
  | obj (fields : List (String × Json)) : Json

/-- Model of `Value::get(key)` on a JSON value: field lookup on objects, `None` otherwise. -/
def Json.get : Json → String → Option Json
  | .obj fields, key => fields.lookup key
  | _, _ => none

/-- Model of `Value::as_str`. -/
def Json.asStr : Json → Option String
  | .str s => some s
  | _ => none

/-- Model of `Value::as_array`. -/
def Json.asArray : Json → Option (List Json)
  | .arr elems => some elems
  | _ => none

/-- Model of `Value::as_u64`. -/
def Json.asU64 : Json → Option Nat
  | .num n => if 0 ≤ n ∧ n < 2 ^ 64 then some n.toNat else none
  | _ => none

/-- Rust `str::parse::<u64>`: an optional leading `+`, then one or more ASCII
digits, value within `u64` range. -/
def parseU64 (s : String) : Option Nat :=
  let cs := match s.toList with
    | '+' :: rest => rest
    | other => other
  let val := cs.foldl (fun acc c => acc * 10 + (c.toNat - '0'.toNat)) 0
  if cs ≠ [] ∧ cs.all (fun c => '0' ≤ c ∧ c ≤ '9') ∧ val < 2 ^ 64 then
    some val
  else
    none

/-- Rust `format!("{:x}", n)`: lowercase hex, no padding. -/
def toHex (n : Nat) : String :=
  String.mk (Nat.toDigits 16 n)

/-- Pad a string on the left with `'0'` up to length `len` (no truncation). -/
def padStart (s : String) (len : Nat) : String :=
  String.mk (List.replicate (len - s.length) '0') ++ s

/-- Rust `format!("{:#064x}", fe)`: `0x`-prefixed hex, zero-padded to a total
width of 64 characters (so 62 hex digits). -/
def fmtFelt (n : Nat) : String :=
  "0x" ++ padStart (toHex n) 62

/-- Struct `MetadataAttribute` of `transfer_processor.rs`. -/
structure MetadataAttribute where
  trait_type : String
  value : String
  display_type : String

/-- Struct `NormalizedMetadata` of `transfer_processor.rs`. -/
structure NormalizedMetadata where
  description : String
  external_url : String
  image : String
  name : String
  attributes : List MetadataAttribute

/-- Rows of `CollectionActivity` appended by `add_collection_activity`. -/
structure CollectionActivity where
  address : String
  timestamp : Nat
  block_number : Nat
  event_type : String
  from_address : String
  padded_token_id : String
  token_uri : String
  to_address : String
  transaction_hash : String
  token_type : String

/-- Struct `UpdateTokenData` passed to `update_token`. -/
structure UpdateTokenData where
  collection_address : String
  padded_token_id : String
  token_uri : String
  owner : String
  mint_transaction_hash : String
  block_number_minted : Nat
  raw : Json
  normalized : NormalizedMetadata

/-- Struct `EmittedEvent` as decoded from the input string: the fields
`process_transfers` reads.  Field elements are modelled as `Nat`. -/
structure EmittedEvent where
  from_address : Nat
  data : List Nat
  block_number : Nat
  transaction_hash : Nat

/-- Struct `TokenData` of `transfer_processor.rs`. -/
structure TokenData where
  padded_token_id : String
  token_uri : String
  owner : String
  token_type : String

/-- Struct `TransactionData` of `transfer_processor.rs`. -/
structure TransactionData where
  timestamp : Nat
  block_number : Nat
  from_address : String
  to_address : String
  hash : String

/-- One observable external call or persistence write of the pipeline, in
program order. -/
inductive Effect where
  | fetchBlock (block_number : Nat) : Effect
  | callContract (selector : String) (calldata : List String) : Effect
  | httpGet (uri : String) : Effect
  | getCollection (address : String) : Effect
  | updateCollection (address contract_type name symbol : String) : Effect
  | updateLatestMint (value : Nat) (address contract_type : String) : Effect
  | updateTokenTransfers (address padded_token_id from_address to_address : String)
      (timestamp : Nat) (transaction_hash : String) : Effect
  | addActivity (a : CollectionActivity) : Effect
  | updateToken (d : UpdateTokenData) : Effect

/-- Discriminator: is this effect the collection-record read of
`process_mint_event`? -/
def Effect.isGetCollection : Effect → Bool
  | .getCollection _ => true
  | _ => false

/-- Discriminator: is this effect an HTTP GET (only `fetch_metadata` issues one)? -/
def Effect.isHttpGet : Effect → Bool
  | .httpGet _ => true
  | _ => false

/-- Discriminator: is this effect the token-record write (`update_token`)? -/
def Effect.isUpdateToken : Effect → Bool
  | .updateToken _ => true
  | _ => false

/-- Discriminator: is this effect a `CollectionActivity` append? -/
def Effect.isActivity : Effect → Bool
  | .addActivity _ => true
  | _ => false

/-- Discriminator: is this effect the `latest_mint` collection update? -/
def Effect.isLatestMint : Effect → Bool
  | .updateLatestMint _ _ _ => true
  | _ => false

/-- Discriminator: is this effect the token-transfer-record write
(`update_token_transfers`)? -/
def Effect.isTransferWrite : Effect → Bool
  | .updateTokenTransfers _ _ _ _ _ _ => true
  | _ => false

/-- How one invocation of `process_transfers` terminates: normal return
`Ok(())`, a returned error (Rust `?`), or a panic (Rust `unwrap` on a failed
value or out-of-bounds indexing). -/
inductive Outcome where
  | ok : Outcome
  | errReturned : Outcome
  | panicked : Outcome
deriving DecidableEq

/-- The external collaborators, as oracles.  Each field models the result the
corresponding external call would produce during this invocation. -/
structure Env where
  /-- `serde_json::from_str::<EmittedEvent>` on the input string. -/
  decode : String → Option EmittedEvent
  /-- `get_block_with_txs`: the block JSON, or a transport error. -/
  getBlock : Except Unit Json
  /-- `get_contract_property_string (selector, calldata)`: always a string
  (that helper absorbs RPC failures into `"undefined"`). -/
  contractProp : String → List String → String
  /-- `call_contract` for `ownerOf`: the returned words, or an error. -/
  ownerCall : Except Unit (List String)
  /-- Result of the `update_collection` store write. -/
  updateCollectionRes : Except Unit Unit
  /-- `get_collection`: store error, no record, or the record as an
  attribute-name/string-value map. -/
  getCollectionRes : Except Unit (Option (List (String × String)))
  /-- The HTTP GET + JSON parse of `fetch_metadata`: body for a URI, or a
  network/parse error. -/
  http : String → Except Unit Json

/-- Function `get_token_uri` (lines 75–116): try the legacy `tokenURI` entry point with
the token id's two half-words in hex; accept the result when it is neither
`"undefined"` nor empty; otherwise try `token_uri` the same way under the same
acceptance test; otherwise return `"undefined"`.  Returns the resolved string
together with the contract calls made, in order. -/
def get_token_uri (prop : String → List String → String)
    (token_id_low token_id_high : Nat) : String × List Effect :=
  let token_id_low_hex := toHex token_id_low
  let token_id_high_hex := toHex token_id_high
  let calldata := [token_id_low_hex, token_id_high_hex]
  let token_uri_cairo0 := prop "tokenURI" calldata
  if token_uri_cairo0 ≠ "undefined" ∧ token_uri_cairo0 ≠ "" then
    (token_uri_cairo0, [.callContract "tokenURI" calldata])
  else
    let token_uri := prop "token_uri" calldata
    if token_uri ≠ "undefined" ∧ token_uri ≠ "" then
      (token_uri, [.callContract "tokenURI" calldata, .callContract "token_uri" calldata])
    else
      ("undefined", [.callContract "tokenURI" calldata, .callContract "token_uri" calldata])

/-- Function `get_token_owner` (lines 260–281): `ownerOf` call; on success take the
first returned word with `"` characters stripped, else the empty string. -/
def get_token_owner (ownerCall : Except Unit (List String))
    (token_id_low token_id_high : Nat) : String × List Effect :=
  let calldata := [toHex token_id_low, toHex token_id_high]
  let effs := [Effect.callContract "ownerOf" calldata]
  match ownerCall with
  | .ok result =>
    match result.head? with
    | some token_owner => (token_owner.replace "\"" "", effs)
    | none => ("", effs)
  | .error _ => ("", effs)

/-- Function `update_additional_collection_data` (lines 118–146): read `symbol` and
`name` from the contract, then upsert the collection record; the store write's
failure propagates via `?`. -/
def update_additional_collection_data (env : Env)
    (contract_address contract_type : String) : Except Unit Unit × List Effect :=
  let collection_symbol := env.contractProp "symbol" []
  let collection_name := env.contractProp "name" []
  let effs := [Effect.callContract "symbol" [], Effect.callContract "name" [],
    Effect.updateCollection contract_address contract_type collection_name collection_symbol]
  (env.updateCollectionRes, effs)

/-- Normalization of one `attributes` element (lines 434–453): each of
`trait_type`, `value`, `display_type` read as a string, defaulting to `""`. -/
def normalizeAttribute (attr : Json) : MetadataAttribute :=
  { trait_type := ((attr.get "trait_type").bind Json.asStr).getD ""
    value := ((attr.get "value").bind Json.asStr).getD ""
    display_type := ((attr.get "display_type").bind Json.asStr).getD "" }

/-- The normalization half of `fetch_metadata` (lines 427–473): top-level
`description`, `image`, `name` as strings defaulting to `""`; `external_url`
is the caller's `initial_metadata_uri`; `attributes` from the top-level array
field, defaulting to the empty list. -/
def normalizeMetadata (raw : Json) (initial_metadata_uri : String) : NormalizedMetadata :=
  let attrs := ((raw.get "attributes").bind Json.asArray).getD []
  { description := ((raw.get "description").bind Json.asStr).getD ""
    external_url := initial_metadata_uri
    image := ((raw.get "image").bind Json.asStr).getD ""
    name := ((raw.get "name").bind Json.asStr).getD ""
    attributes := attrs.map normalizeAttribute }

/-- Function `fetch_metadata` (lines 415–476): HTTP GET of `metadata_uri`, parse the
body as JSON (both failures propagate via `?`), and normalize. -/
def fetch_metadata (http : String → Except Unit Json)
    (metadata_uri initial_metadata_uri : String) :
    Except Unit (Json × NormalizedMetadata) × List Effect :=
  match http metadata_uri with
  | .ok raw => (.ok (raw, normalizeMetadata raw initial_metadata_uri), [.httpGet metadata_uri])
  | .error e => (.error e, [.httpGet metadata_uri])

/-- Modelled from the spec: the URI sanitizer collaborator (`sanitize_uri` in
the crate's `utils`, not present under `src/`).  Per the spec it maps a source
URI to a fetchable HTTP URI plus the original URI string; a non-HTTP `ipfs://`
scheme is rewritten to a gateway HTTP URI; the unresolved sentinel
`"undefined"` (and the empty string) have no fetchable form and map to the
empty fetchable URI, which makes the caller skip the metadata fetch. -/
def sanitize_uri (token_uri : String) : String × String :=
  if token_uri = "undefined" ∨ token_uri = "" then
    ("", token_uri)
  else if token_uri.startsWith "ipfs://" then
    ("https://ipfs-gateway/" ++ token_uri.drop 7, token_uri)
  else
    (token_uri, token_uri)

/-- Modelled from the spec: `TokenId::format` of the crate's `starknet::utils`
(not present under `src/`).  Combines the two 128-bit halves into the logical
256-bit identifier, exposing the numeric half values, the decimal string form,
and a fixed-width zero-padded decimal form used as a sortable storage key. -/
structure FormattedTokenId where
  low : Nat
  high : Nat
  token_id : String
  padded_token_id : String

/-- Modelled from the spec: build the `FormattedTokenId` from the two halves. -/
def formatTokenId (low high : Nat) : FormattedTokenId :=
  let l := low % 2 ^ 128
  let h := high % 2 ^ 128
  let n := h * 2 ^ 128 + l
  { low := l, high := h, token_id := toString n
    padded_token_id := padStart (toString n) 78 }

/-- The `latest_mint` reconciliation of `process_mint_event` (lines 322–353),
as the list of `latest_mint` writes it issues: if the stored record has no
`latest_mint` attribute, write the new timestamp; if the attribute does not
parse as `u64`, log and skip; if it parses, write only when the existing value
is strictly greater than the new timestamp — and the value written back is the
existing one (`latest_mint_value`), as in the source. -/
def reconcileLatestMint (collection : List (String × String)) (timestamp : Nat)
    (collection_address token_type : String) : List Effect :=
  match collection.lookup "latest_mint" with
  | some latest_mint_str =>
    match parseU64 latest_mint_str with
    | some latest_mint_value =>
      if latest_mint_value > timestamp then
        [.updateLatestMint latest_mint_value collection_address token_type]
      else
        []
    | none => []
  | none => [.updateLatestMint timestamp collection_address token_type]

/-- The collection branch of `process_mint_event` (lines 312–378): read the
collection record; when it exists, reconcile `latest_mint` and append the
`"mint"` activity row; on a missing record or a store error, only log. -/
def mintCollectionEffects (env : Env) (collection_address : String)
    (token_data : TokenData) (transaction_data : TransactionData) : List Effect :=
  Effect.getCollection collection_address ::
    match env.getCollectionRes with
    | .ok (some collection) =>
      reconcileLatestMint collection transaction_data.timestamp collection_address
          token_data.token_type ++
        [Effect.addActivity
          { address := collection_address
            timestamp := transaction_data.timestamp
            block_number := transaction_data.block_number
            event_type := "mint"
            from_address := transaction_data.from_address
            padded_token_id := token_data.padded_token_id
            token_uri := token_data.token_uri
            to_address := transaction_data.to_address
            transaction_hash := transaction_data.hash
            token_type := token_data.token_type }]
    | .ok none => []
    | .error _ => []

/-- The metadata branch of `process_mint_event` (lines 380–412): when the
sanitized URI is non-empty, fetch and normalize the metadata and, on success,
write the token record; a fetch failure is logged and absorbed. -/
def mintMetadataEffects (env : Env) (collection_address : String)
    (token_data : TokenData) (transaction_data : TransactionData) : List Effect :=
  let s := sanitize_uri token_data.token_uri
  let metadata_uri := s.1
  let initial_metadata_uri := s.2
  if metadata_uri ≠ "" then
    let r := fetch_metadata env.http metadata_uri initial_metadata_uri
    match r.1 with
    | .ok (raw, normalized) =>
      r.2 ++
        [Effect.updateToken
          { collection_address := collection_address
            padded_token_id := token_data.padded_token_id
            token_uri := token_data.token_uri
            owner := token_data.owner
            mint_transaction_hash := transaction_data.hash
            block_number_minted := transaction_data.block_number
            raw := raw
            normalized := normalized }]
    | .error _ => r.2
  else
    []

/-- Function `process_mint_event` (lines 298–413): sanitize the URI, run the collection
branch, then the metadata branch.  The function returns `()` in the source;
here it is the effect trace. -/
def process_mint_event (env : Env) (collection_address : String)
    (token_data : TokenData) (transaction_data : TransactionData) : List Effect :=
  mintCollectionEffects env collection_address token_data transaction_data ++
    mintMetadataEffects env collection_address token_data transaction_data

/-- Body of `process_transfers` after the event data words have been extracted
(lines 166–257): format the addresses, resolve URI and owner, upsert the
collection's descriptive fields (`unwrap` → panic on failure), write the
token-transfer record, then branch on mint detection
(`event.data[0] == FieldElement::ZERO`). -/
def processDecodedData (env : Env) (event : EmittedEvent) (contract_type : String)
    (timestamp : Nat) (d0 d1 d2 d3 : Nat) : Outcome × List Effect :=
  let from_address := fmtFelt d0
  let to_address := fmtFelt d1
  let contract_address := fmtFelt event.from_address
  let transaction_hash := fmtFelt event.transaction_hash
  let formated_token_id := formatTokenId d2 d3
  let u := get_token_uri env.contractProp formated_token_id.low formated_token_id.high
  let o := get_token_owner env.ownerCall d2 d3
  let a := update_additional_collection_data env contract_address contract_type
  let effs := u.2 ++ o.2 ++ a.2
  match a.1 with
  | .error _ => (.panicked, effs)
  | .ok _ =>
    let effs := effs ++
      [Effect.updateTokenTransfers contract_address formated_token_id.padded_token_id
        from_address to_address timestamp transaction_hash]
    if d0 = 0 then
      (.ok, effs ++
        process_mint_event env contract_address
          { padded_token_id := formated_token_id.padded_token_id
            token_uri := u.1
            owner := o.1
            token_type := contract_type }
          { timestamp := timestamp
            block_number := event.block_number
            from_address := from_address
            to_address := to_address
            hash := transaction_hash })
    else
      (.ok, effs)

/-- Body of `process_transfers` after a successful decode (lines 160–257): fetch the
block (`unwrap` → panic on failure), extract the timestamp (`unwrap` → panic
when absent or not a `u64`), index the four data words (panic when fewer),
then continue with `processDecodedData`. -/
def processDecoded (env : Env) (event : EmittedEvent) (contract_type : String) :
    Outcome × List Effect :=
  match env.getBlock with
  | .error _ => (.panicked, [])
  | .ok block =>
    match (block.get "timestamp").bind Json.asU64 with
    | none => (.panicked, [])
    | some timestamp =>
      match event.data with
      | d0 :: d1 :: d2 :: d3 :: _ =>
        processDecodedData env event contract_type timestamp d0 d1 d2 d3
      | _ => (.panicked, [])

/-- Function `process_transfers` (lines 148–258): decode the input string (`?` → a
returned error), then process the decoded event; the block fetch is the first
external call. -/
def process_transfers (env : Env) (value : String) (contract_type : String) :
    Outcome × List Effect :=
  match env.decode value with
  | none => (.errReturned, [])
  | some event =>
    let r := processDecoded env event contract_type
    (r.1, Effect.fetchBlock event.block_number :: r.2)

/-- Does the environment's collection read return an existing record? -/
def collectionFound (env : Env) : Bool :=
  match env.getCollectionRes with
  | .ok (some _) => true
  | _ => false

/-! ## Concrete events and environments used by the witnesses and
counterexamples -/

/-- Environment for the C1 witness: a stored collection whose `latest_mint`
is `"2000"` while the new mint timestamp is `1000`. -/
def envC1 : Env :=
  { decode := fun _ => none
    getBlock := .error ()
    contractProp := fun _ _ => "undefined"
    ownerCall := .error ()
    updateCollectionRes := .ok ()
    getCollectionRes := .ok (some [("latest_mint", "2000")])
    http := fun _ => .error () }

/-- Event for the C2 witness: a mint (`data[0] = 0`). -/
def eventC2 : EmittedEvent :=
  { from_address := 5, data := [0, 2, 1, 0], block_number := 7, transaction_hash := 9 }

/-- Environment for the C2 witness: every external call succeeds. -/
def envC2 : Env :=
  { decode := fun _ => some eventC2
    getBlock := .ok (Json.obj [("timestamp", Json.num 1000)])
    contractProp := fun _ _ => "undefined"
    ownerCall := .ok ["0xowner"]
    updateCollectionRes := .ok ()
    getCollectionRes := .ok (some [])
    http := fun _ => .ok (Json.obj []) }

/-- Environment for C3: the collection record exists; the HTTP oracle would
answer, but no fetch may be issued. -/
def envC3 : Env :=
  { decode := fun _ => none
    getBlock := .error ()
    contractProp := fun _ _ => "undefined"
    ownerCall := .error ()
    updateCollectionRes := .ok ()
    getCollectionRes := .ok (some [])
    http := fun _ => .ok (Json.obj []) }

/-- Token data for C3: the URI resolver returned the unresolved sentinel. -/
def tdC3 : TokenData :=
  { padded_token_id := "0001", token_uri := "undefined", owner := "", token_type := "erc721" }

/-- Transaction data for C3. -/
def txC3 : TransactionData :=
  { timestamp := 100, block_number := 7, from_address := "0xa", to_address := "0xb",
    hash := "0xc" }

/-- Event for the C4 counterexample: a mint transfer. -/
def eventC4 : EmittedEvent :=
  { from_address := 5, data := [0, 2, 1, 0], block_number := 7, transaction_hash := 9 }

/-- Environment for the C4 counterexample: the collection descriptive-fields
upsert (`update_collection`) fails; everything else succeeds. -/
def envC4 : Env :=
  { decode := fun _ => some eventC4
    getBlock := .ok (Json.obj [("timestamp", Json.num 1000)])
    contractProp := fun _ _ => "x"
    ownerCall := .error ()
    updateCollectionRes := .error ()
    getCollectionRes := .ok (some [])
    http := fun _ => .ok (Json.obj []) }

/-- Event for the C5 counterexample. -/
def eventC5 : EmittedEvent :=
  { from_address := 5, data := [0, 2, 1, 0], block_number := 7, transaction_hash := 9 }

/-- Environment for the C5 counterexample: the event decodes but the
block-header fetch fails. -/
def envC5 : Env :=
  { decode := fun _ => some eventC5
    getBlock := .error ()
    contractProp := fun _ _ => "undefined"
    ownerCall := .error ()
    updateCollectionRes := .ok ()
    getCollectionRes := .ok none
    http := fun _ => .error () }

/-- Event for the C6 counterexample: a non-mint transfer (`data[0] = 1`). -/
def eventC6 : EmittedEvent :=
  { from_address := 5, data := [1, 2, 3, 4], block_number := 7, transaction_hash := 9 }

/-- Environment for the C6 counterexample: every external call succeeds and
the collection record exists. -/
def envC6 : Env :=
  { decode := fun _ => some eventC6
    getBlock := .ok (Json.obj [("timestamp", Json.num 1000)])
    contractProp := fun _ _ => "undefined"
    ownerCall := .error ()
    updateCollectionRes := .ok ()
    getCollectionRes := .ok (some [])
    http := fun _ => .ok (Json.obj []) }

/-! ## Helper lemmas on effect traces -/

theorem filter_get_token_uri_eq_nil (prop : String → List String → String)
    (lo hi : Nat) (p : Effect → Bool)
    (h : ∀ s c, p (.callContract s c) = false) :
    ((get_token_uri prop lo hi).2).filter p = [] := by
  simp only [get_token_uri]
  split
  · simp [List.filter, h]
  · split <;> simp [List.filter, h]

theorem filter_get_token_owner_eq_nil (oc : Except Unit (List String))
    (lo hi : Nat) (p : Effect → Bool)
    (h : ∀ s c, p (.callContract s c) = false) :
    ((get_token_owner oc lo hi).2).filter p = [] := by
  unfold get_token_owner
  cases oc <;> simp [List.filter, h]
  split <;> simp [List.filter, h]

theorem filter_update_additional_eq_nil (env : Env) (a t : String) (p : Effect → Bool)
    (h1 : ∀ s c, p (.callContract s c) = false)
    (h2 : ∀ a' t' n' s', p (.updateCollection a' t' n' s') = false) :
    ((update_additional_collection_data env a t).2).filter p = [] := by
  simp [update_additional_collection_data, List.filter, h1, h2]

theorem fetch_metadata_effects (http : String → Except Unit Json) (u i : String) :
    (fetch_metadata http u i).2 = [.httpGet u] := by
  unfold fetch_metadata
  cases h : http u <;> simp

theorem filter_mintMetadataEffects_eq_nil (env : Env) (a : String)
    (td : TokenData) (tx : TransactionData) (p : Effect → Bool)
    (h1 : ∀ u, p (.httpGet u) = false)
    (h2 : ∀ d, p (.updateToken d) = false) :
    (mintMetadataEffects env a td tx).filter p = [] := by
  simp only [mintMetadataEffects]
  split
  · split <;> simp [fetch_metadata_effects, List.filter, h1, h2]
  · rfl

theorem filter_reconcileLatestMint_isLatestMint
    (c : List (String × String)) (t : Nat) (a ty : String) :
    (reconcileLatestMint c t a ty).filter Effect.isLatestMint
      = reconcileLatestMint c t a ty := by
  unfold reconcileLatestMint
  split <;> [skip; simp [List.filter, Effect.isLatestMint]]
  split <;> [skip; simp [List.filter]]
  split <;> simp [List.filter, Effect.isLatestMint]

theorem filter_reconcileLatestMint_isActivity
    (c : List (String × String)) (t : Nat) (a ty : String) :
    (reconcileLatestMint c t a ty).filter Effect.isActivity = [] := by
  unfold reconcileLatestMint
  split <;> [skip; simp [List.filter, Effect.isActivity]]
  split <;> [skip; simp [List.filter]]
  split <;> simp [List.filter, Effect.isActivity]

theorem filter_reconcileLatestMint_eq_nil
    (c : List (String × String)) (t : Nat) (a ty : String) (p : Effect → Bool)
    (h : ∀ v x y, p (.updateLatestMint v x y) = false) :
    (reconcileLatestMint c t a ty).filter p = [] := by
  unfold reconcileLatestMint
  split <;> [skip; simp [List.filter, h]]
  split <;> [skip; simp [List.filter]]
  split <;> simp [List.filter, h]

theorem filter_mintCollectionEffects_eq_nil (env : Env) (a : String)
    (td : TokenData) (tx : TransactionData) (p : Effect → Bool)
    (h0 : ∀ x, p (.getCollection x) = false)
    (h1 : ∀ v x y, p (.updateLatestMint v x y) = false)
    (h2 : ∀ act, p (.addActivity act) = false) :
    (mintCollectionEffects env a td tx).filter p = [] := by
  unfold mintCollectionEffects
  cases hc : env.getCollectionRes with
  | error e => simp [List.filter, h0]
  | ok oc =>
    cases oc with
    | none => simp [List.filter, h0]
    | some c =>
      simp [List.filter, List.filter_append, h0, h2,
        filter_reconcileLatestMint_eq_nil c tx.timestamp a td.token_type p h1]

theorem any_eq_false_of_filter_eq_nil {l : List Effect} {p : Effect → Bool}
    (h : l.filter p = []) : l.any p = false := by
  rw [List.filter_eq_nil_iff] at h
  rw [Bool.eq_false_iff]
  intro hc
  rw [List.any_eq_true] at hc
  obtain ⟨x, hx, hpx⟩ := hc
  exact h x hx hpx

theorem any_isGetCollection_process_mint_event (env : Env) (a : String)
    (td : TokenData) (tx : TransactionData) :
    (process_mint_event env a td tx).any Effect.isGetCollection = true := by
  simp [process_mint_event, mintCollectionEffects, Effect.isGetCollection]

theorem filter_latestMint_process_mint_event (env : Env) (a : String)
    (td : TokenData) (tx : TransactionData) (collection : List (String × String))
    (h : env.getCollectionRes = .ok (some collection)) :
    (process_mint_event env a td tx).filter Effect.isLatestMint
      = reconcileLatestMint collection tx.timestamp a td.token_type := by
  unfold process_mint_event mintCollectionEffects
  rw [h]
  simp [List.filter_append, List.filter, Effect.isLatestMint,
    filter_reconcileLatestMint_isLatestMint,
    filter_mintMetadataEffects_eq_nil env a td tx Effect.isLatestMint
      (fun _ => rfl) (fun _ => rfl)]

theorem filter_activity_process_mint_event (env : Env) (a : String)
    (td : TokenData) (tx : TransactionData) :
    (process_mint_event env a td tx).filter Effect.isActivity
      = if collectionFound env then
          [Effect.addActivity
            { address := a, timestamp := tx.timestamp, block_number := tx.block_number,
              event_type := "mint", from_address := tx.from_address,
              padded_token_id := td.padded_token_id, token_uri := td.token_uri,
              to_address := tx.to_address, transaction_hash := tx.hash,
              token_type := td.token_type }]
        else [] := by
  unfold process_mint_event mintCollectionEffects collectionFound
  rw [List.filter_append,
    filter_mintMetadataEffects_eq_nil env a td tx Effect.isActivity
      (fun _ => rfl) (fun _ => rfl)]
  cases hc : env.getCollectionRes with
  | error e => simp [List.filter, Effect.isActivity]
  | ok oc =>
    cases oc with
    | none => simp [List.filter, Effect.isActivity]
    | some c =>
      simp [List.filter, List.filter_append, Effect.isActivity,
        filter_reconcileLatestMint_isActivity]

theorem filter_getCollection_process_mint_event (env : Env) (a : String)
    (td : TokenData) (tx : TransactionData) :
    (process_mint_event env a td tx).filter Effect.isGetCollection
      = [.getCollection a] := by
  unfold process_mint_event mintCollectionEffects
  rw [List.filter_append,
    filter_mintMetadataEffects_eq_nil env a td tx Effect.isGetCollection
      (fun _ => rfl) (fun _ => rfl)]
  cases hc : env.getCollectionRes with
  | error e => simp [List.filter, Effect.isGetCollection]
  | ok oc =>
    cases oc with
    | none => simp [List.filter, Effect.isGetCollection]
    | some c =>
      simp [List.filter, List.filter_append, Effect.isGetCollection,
        filter_reconcileLatestMint_eq_nil c tx.timestamp a td.token_type
          Effect.isGetCollection (fun _ _ _ => rfl)]

/-- Reduce `process_transfers` once the decode, block fetch and timestamp
extraction have succeeded and the event carries at least four data words. -/
theorem process_transfers_run (env : Env) (value ct : String) (event : EmittedEvent)
    (block : Json) (ts d0 d1 d2 d3 : Nat) (rest : List Nat)
    (hdec : env.decode value = some event)
    (hb : env.getBlock = .ok block)
    (hts : (block.get "timestamp").bind Json.asU64 = some ts)
    (hdata : event.data = d0 :: d1 :: d2 :: d3 :: rest) :
    process_transfers env value ct =
      ((processDecodedData env event ct ts d0 d1 d2 d3).1,
        Effect.fetchBlock event.block_number ::
          (processDecodedData env event ct ts d0 d1 d2 d3).2) := by
  simp only [process_transfers, hdec, processDecoded, hb, hts, hdata]

/-- Reduce `processDecodedData` when the descriptive-fields upsert succeeds. -/
theorem processDecodedData_ok (env : Env) (event : EmittedEvent) (ct : String)
    (ts d0 d1 d2 d3 : Nat) (hu : env.updateCollectionRes = .ok ()) :
    processDecodedData env event ct ts d0 d1 d2 d3 =
      (.ok,
        (get_token_uri env.contractProp (formatTokenId d2 d3).low
            (formatTokenId d2 d3).high).2 ++
          (get_token_owner env.ownerCall d2 d3).2 ++
          (update_additional_collection_data env (fmtFelt event.from_address) ct).2 ++
          [Effect.updateTokenTransfers (fmtFelt event.from_address)
            (formatTokenId d2 d3).padded_token_id (fmtFelt d0) (fmtFelt d1) ts
            (fmtFelt event.transaction_hash)] ++
          (if d0 = 0 then
            process_mint_event env (fmtFelt event.from_address)
              { padded_token_id := (formatTokenId d2 d3).padded_token_id
                token_uri := (get_token_uri env.contractProp (formatTokenId d2 d3).low
                    (formatTokenId d2 d3).high).1
                owner := (get_token_owner env.ownerCall d2 d3).1
                token_type := ct }
              { timestamp := ts, block_number := event.block_number
                from_address := fmtFelt d0, to_address := fmtFelt d1
                hash := fmtFelt event.transaction_hash }
          else [])) := by
  simp only [processDecodedData, update_additional_collection_data, hu]
  split <;> simp [List.append_assoc]

/-- Reduce `processDecodedData` when the descriptive-fields upsert fails: the
`unwrap` panics. -/
theorem processDecodedData_updErr (env : Env) (event : EmittedEvent) (ct : String)
    (ts d0 d1 d2 d3 : Nat) (hu : env.updateCollectionRes = .error ()) :
    processDecodedData env event ct ts d0 d1 d2 d3 =
      (.panicked,
        (get_token_uri env.contractProp (formatTokenId d2 d3).low
            (formatTokenId d2 d3).high).2 ++
          (get_token_owner env.ownerCall d2 d3).2 ++
          (update_additional_collection_data env (fmtFelt event.from_address) ct).2) := by
  simp only [processDecodedData, update_additional_collection_data, hu]

/-- A successful run of `process_transfers` implies the block fetch, the
timestamp extraction and the descriptive-fields upsert all succeeded. -/
theorem ok_outcome_inversion (env : Env) (value ct : String) (event : EmittedEvent)
    (d0 d1 d2 d3 : Nat) (rest : List Nat)
    (hdec : env.decode value = some event)
    (hdata : event.data = d0 :: d1 :: d2 :: d3 :: rest)
    (hok : (process_transfers env value ct).1 = .ok) :
    ∃ block ts, env.getBlock = .ok block ∧
      (block.get "timestamp").bind Json.asU64 = some ts ∧
      env.updateCollectionRes = .ok () := by
  cases hb : env.getBlock with
  | error e => simp [process_transfers, hdec, processDecoded, hb] at hok
  | ok block =>
    cases hts : (block.get "timestamp").bind Json.asU64 with
    | none => simp [process_transfers, hdec, processDecoded, hb, hts] at hok
    | some ts =>
      cases hu : env.updateCollectionRes with
      | error e =>
        simp [process_transfers, hdec, processDecoded, hb, hts, hdata,
          processDecodedData, update_additional_collection_data, hu] at hok
      | ok u => exact ⟨block, ts, rfl, hts, by cases u; rfl⟩

/-! ## Claims about URI resolution and metadata normalization -/

/-- Claim C7: URI resolution invokes the legacy `tokenURI` method first with
the token id's two half-words, returns its result when it is non-empty and not
the literal `"undefined"`; only then invokes the newer `token_uri` method the
same way, returning its result under the same condition; when neither yields
such a result the unresolved sentinel `"undefined"` is returned. -/
theorem uri_resolution_two_generation_fallback
    (prop : String → List String → String) (lo hi : Nat) :
    (prop "tokenURI" [toHex lo, toHex hi] ≠ "undefined" ∧
        prop "tokenURI" [toHex lo, toHex hi] ≠ "" →
      get_token_uri prop lo hi =
        (prop "tokenURI" [toHex lo, toHex hi],
          [.callContract "tokenURI" [toHex lo, toHex hi]])) ∧
    (¬(prop "tokenURI" [toHex lo, toHex hi] ≠ "undefined" ∧
        prop "tokenURI" [toHex lo, toHex hi] ≠ "") →
      prop "token_uri" [toHex lo, toHex hi] ≠ "undefined" ∧
        prop "token_uri" [toHex lo, toHex hi] ≠ "" →
      get_token_uri prop lo hi =
        (prop "token_uri" [toHex lo, toHex hi],
          [.callContract "tokenURI" [toHex lo, toHex hi],
           .callContract "token_uri" [toHex lo, toHex hi]])) ∧
    (¬(prop "tokenURI" [toHex lo, toHex hi] ≠ "undefined" ∧
        prop "tokenURI" [toHex lo, toHex hi] ≠ "") →
      ¬(prop "token_uri" [toHex lo, toHex hi] ≠ "undefined" ∧
        prop "token_uri" [toHex lo, toHex hi] ≠ "") →
      get_token_uri prop lo hi =
        ("undefined",
          [.callContract "tokenURI" [toHex lo, toHex hi],
           .callContract "token_uri" [toHex lo, toHex hi]])) := by
  refine ⟨fun h => ?_, fun h1 h2 => ?_, fun h1 h2 => ?_⟩ <;>
    simp only [get_token_uri] <;>
    [rw [if_pos h]; rw [if_neg h1, if_pos h2]; rw [if_neg h1, if_neg h2]]

/-- Witness for C7: a contract answering `"undefined"` on `tokenURI` and a
real URI on `token_uri` resolves through the second-generation method. -/
theorem uri_resolution_two_generation_fallback_witness :
    get_token_uri (fun sel _ => if sel = "tokenURI" then "undefined" else "ipfs://x") 1 2
      = ("ipfs://x",
        [.callContract "tokenURI" [toHex 1, toHex 2],
         .callContract "token_uri" [toHex 1, toHex 2]]) :=
  (uri_resolution_two_generation_fallback
      (fun sel _ => if sel = "tokenURI" then "undefined" else "ipfs://x") 1 2).2.1
    (by simp) (by simp)

/-- Claim C8: metadata normalization is total over any parsed JSON value: the
fetch succeeds whenever the HTTP body parses, and the normalizer produces
empty-string defaults for `description`, `image`, `name` when the top-level
field is absent or not a string, empty-string defaults for each attribute's
`trait_type`, `value`, `display_type`, and an empty attribute list when
`attributes` is missing or not an array. -/
theorem metadata_normalization_total (http : String → Except Unit Json)
    (uri init : String) (raw : Json) (h : http uri = .ok raw) :
    (fetch_metadata http uri init).1 = .ok (raw, normalizeMetadata raw init) ∧
    ((raw.get "description").bind Json.asStr = none →
      (normalizeMetadata raw init).description = "") ∧
    ((raw.get "image").bind Json.asStr = none →
      (normalizeMetadata raw init).image = "") ∧
    ((raw.get "name").bind Json.asStr = none →
      (normalizeMetadata raw init).name = "") ∧
    ((raw.get "attributes").bind Json.asArray = none →
      (normalizeMetadata raw init).attributes = []) ∧
    ((normalizeMetadata raw init).attributes =
      (((raw.get "attributes").bind Json.asArray).getD []).map normalizeAttribute) ∧
    (∀ attr : Json,
      ((attr.get "trait_type").bind Json.asStr = none →
        (normalizeAttribute attr).trait_type = "") ∧
      ((attr.get "value").bind Json.asStr = none →
        (normalizeAttribute attr).value = "") ∧
      ((attr.get "display_type").bind Json.asStr = none →
        (normalizeAttribute attr).display_type = "")) := by
  refine ⟨by simp [fetch_metadata, h], fun hd => ?_, fun hd => ?_, fun hd => ?_,
    fun hd => ?_, rfl, fun attr => ⟨fun hd => ?_, fun hd => ?_, fun hd => ?_⟩⟩ <;>
    simp [normalizeMetadata, normalizeAttribute, hd]

/-- Witness for C8: fetching the empty JSON object succeeds and normalizes. -/
theorem metadata_normalization_total_witness :
    (fetch_metadata (fun _ => Except.ok (Json.obj [])) "https://m/1.json" "u0").1
      = Except.ok (Json.obj [], normalizeMetadata (Json.obj []) "u0") :=
  (metadata_normalization_total (fun _ => Except.ok (Json.obj []))
    "https://m/1.json" "u0" (Json.obj []) rfl).1

/-- Claim C9: for every fetched JSON body, the `external_url` of the
normalized metadata equals the original pre-rewrite URI argument, never a
value taken from the fetched JSON body. -/
theorem external_url_echoes_initial_uri (http : String → Except Unit Json)
    (uri init : String) (raw : Json) (nm : NormalizedMetadata)
    (h : (fetch_metadata http uri init).1 = .ok (raw, nm)) :
    nm.external_url = init := by
  unfold fetch_metadata at h
  cases hh : http uri <;> rw [hh] at h <;> simp at h
  rw [← h.2]
  rfl

/-- Witness for C9: even when the body defines its own `external_url`, the
normalized value is the caller's original URI. -/
theorem external_url_echoes_initial_uri_witness :
    (normalizeMetadata (Json.obj [("external_url", Json.str "spoof")])
        "ipfs://orig/1.json").external_url = "ipfs://orig/1.json" :=
  external_url_echoes_initial_uri
    (fun _ => Except.ok (Json.obj [("external_url", Json.str "spoof")]))
    "https://g/1.json" "ipfs://orig/1.json"
    (Json.obj [("external_url", Json.str "spoof")])
    (normalizeMetadata (Json.obj [("external_url", Json.str "spoof")]) "ipfs://orig/1.json")
    rfl

/-- Claim C10: when the input string does not decode as a transfer event,
`process_transfers` returns an error having performed no external call and no
store write: the effect trace is empty. -/
theorem decode_failure_aborts_with_no_effects (env : Env) (value ct : String)
    (h : env.decode value = none) :
    process_transfers env value ct = (.errReturned, []) := by
  simp [process_transfers, h]

/-- Witness for C10: a concrete environment whose decoder rejects the input. -/
theorem decode_failure_aborts_with_no_effects_witness :
    process_transfers
      { decode := fun _ => none
        getBlock := .error ()
        contractProp := fun _ _ => "undefined"
        ownerCall := .error ()
        updateCollectionRes := .ok ()
        getCollectionRes := .ok none
        http := fun _ => .error () } "not json" "erc721" = (.errReturned, []) :=
  decode_failure_aborts_with_no_effects _ "not json" "erc721" rfl

/-! ## Claims about the orchestrator -/

/-- Claim C1: mint-timestamp reconciliation.  When the stored collection
record has no `latest_mint` field, processing the mint writes the new mint
timestamp into it; when the field exists but does not parse as an integer, no
`latest_mint` update is issued (the stored state is unchanged); when it
parses, an update is issued exactly when the existing stored value is strictly
greater than the new timestamp. -/
theorem latest_mint_reconciliation (env : Env) (a : String) (td : TokenData)
    (tx : TransactionData) (collection : List (String × String))
    (h : env.getCollectionRes = .ok (some collection)) :
    (collection.lookup "latest_mint" = none →
      (process_mint_event env a td tx).filter Effect.isLatestMint
        = [.updateLatestMint tx.timestamp a td.token_type]) ∧
    (∀ s, collection.lookup "latest_mint" = some s → parseU64 s = none →
      (process_mint_event env a td tx).filter Effect.isLatestMint = []) ∧
    (∀ s v, collection.lookup "latest_mint" = some s → parseU64 s = some v →
      ((process_mint_event env a td tx).filter Effect.isLatestMint ≠ [] ↔
        v > tx.timestamp)) := by
  have key := filter_latestMint_process_mint_event env a td tx collection h
  refine ⟨fun hl => ?_, fun s hl hp => ?_, fun s v hl hp => ?_⟩
  · rw [key]
    unfold reconcileLatestMint
    rw [hl]
  · rw [key]
    unfold reconcileLatestMint
    simp only [hl, hp]
  · rw [key]
    unfold reconcileLatestMint
    simp only [hl, hp]
    by_cases hv : v > tx.timestamp <;> simp [hv]

/-- Witness for C1: stored `"2000"` against new timestamp `1000` does issue a
`latest_mint` update (the existing value exceeds the new one). -/
theorem latest_mint_reconciliation_witness :
    (process_mint_event envC1 "0xcol"
        { padded_token_id := "0001", token_uri := "ipfs://x", owner := "",
          token_type := "erc721" }
        { timestamp := 1000, block_number := 7, from_address := "0xa",
          to_address := "0xb", hash := "0xc" }).filter Effect.isLatestMint ≠ [] ↔
      2000 > 1000 :=
  (latest_mint_reconciliation envC1 "0xcol"
      { padded_token_id := "0001", token_uri := "ipfs://x", owner := "",
        token_type := "erc721" }
      { timestamp := 1000, block_number := 7, from_address := "0xa",
        to_address := "0xb", hash := "0xc" }
      [("latest_mint", "2000")] rfl).2.2 "2000" 2000 rfl (by decide)

/-- Claim C2: for every decoded transfer event that is processed to
completion, the mint-specific path (whose first step reads the collection
record) is taken exactly when the event's first data word — the "from"
address — equals the chain's zero-value sentinel. -/
theorem mint_classification_iff_zero_from (env : Env) (value ct : String)
    (event : EmittedEvent) (d0 d1 d2 d3 : Nat) (rest : List Nat)
    (hdec : env.decode value = some event)
    (hdata : event.data = d0 :: d1 :: d2 :: d3 :: rest)
    (hok : (process_transfers env value ct).1 = .ok) :
    ((process_transfers env value ct).2.filter Effect.isGetCollection ≠ []) ↔
      d0 = 0 := by
  obtain ⟨block, ts, hb, hts, hu⟩ :=
    ok_outcome_inversion env value ct event d0 d1 d2 d3 rest hdec hdata hok
  rw [process_transfers_run env value ct event block ts d0 d1 d2 d3 rest hdec hb hts hdata]
  simp only [processDecodedData_ok env event ct ts d0 d1 d2 d3 hu]
  have h1 := filter_get_token_uri_eq_nil env.contractProp (formatTokenId d2 d3).low
    (formatTokenId d2 d3).high Effect.isGetCollection (fun _ _ => rfl)
  have h2 := filter_get_token_owner_eq_nil env.ownerCall d2 d3
    Effect.isGetCollection (fun _ _ => rfl)
  have h3 := filter_update_additional_eq_nil env (fmtFelt event.from_address) ct
    Effect.isGetCollection (fun _ _ => rfl) (fun _ _ _ _ => rfl)
  by_cases hd0 : d0 = 0
  · simp [hd0, List.filter_append, List.filter, Effect.isGetCollection, h1, h2, h3,
      filter_getCollection_process_mint_event]
  · simp [hd0, List.filter_append, List.filter, Effect.isGetCollection, h1, h2, h3]

/-- Witness for C2: the zero "from" word takes the mint path. -/
theorem mint_classification_iff_zero_from_witness :
    ((process_transfers envC2 "v" "erc721").2.filter Effect.isGetCollection ≠ []) ↔
      0 = 0 :=
  mint_classification_iff_zero_from envC2 "v" "erc721" eventC2 0 2 1 0 [] rfl rfl rfl

/-- Claim C6 (amended): at most one `CollectionActivity` entry is appended per
processed transfer — exactly one when the transfer is a mint and the collection
lookup returns an existing record, zero otherwise.  (The pipeline has no
operation that mutates an activity entry, so entries are never modified after
creation.) -/
theorem activity_appends_per_processed_transfer (env : Env) (value ct : String)
    (event : EmittedEvent) (d0 d1 d2 d3 : Nat) (rest : List Nat)
    (hdec : env.decode value = some event)
    (hdata : event.data = d0 :: d1 :: d2 :: d3 :: rest)
    (hok : (process_transfers env value ct).1 = .ok) :
    ((process_transfers env value ct).2.filter Effect.isActivity).length
      = if d0 = 0 ∧ collectionFound env then 1 else 0 := by
  obtain ⟨block, ts, hb, hts, hu⟩ :=
    ok_outcome_inversion env value ct event d0 d1 d2 d3 rest hdec hdata hok
  rw [process_transfers_run env value ct event block ts d0 d1 d2 d3 rest hdec hb hts hdata]
  simp only [processDecodedData_ok env event ct ts d0 d1 d2 d3 hu]
  have h1 := filter_get_token_uri_eq_nil env.contractProp (formatTokenId d2 d3).low
    (formatTokenId d2 d3).high Effect.isActivity (fun _ _ => rfl)
  have h2 := filter_get_token_owner_eq_nil env.ownerCall d2 d3
    Effect.isActivity (fun _ _ => rfl)
  have h3 := filter_update_additional_eq_nil env (fmtFelt event.from_address) ct
    Effect.isActivity (fun _ _ => rfl) (fun _ _ _ _ => rfl)
  by_cases hd0 : d0 = 0
  · subst hd0
    rw [if_pos (rfl : (0 : Nat) = 0),
      List.filter_cons_of_neg (by simp [Effect.isActivity]),
      List.filter_append, List.filter_append, List.filter_append, List.filter_append,
      h1, h2, h3,
      List.filter_cons_of_neg (by simp [Effect.isActivity]),
      filter_activity_process_mint_event]
    cases hcf : collectionFound env <;> simp [hcf]
  · rw [if_neg hd0,
      List.filter_cons_of_neg (by simp [Effect.isActivity]),
      List.filter_append, List.filter_append, List.filter_append, List.filter_append,
      h1, h2, h3,
      List.filter_cons_of_neg (by simp [Effect.isActivity])]
    simp [hd0]

/-- Counterexample for C6: a non-mint transfer is processed to completion and
appends zero `CollectionActivity` entries, not exactly one. -/
theorem transfer_processed_without_activity_entry :
    (process_transfers envC6 "v" "erc721").1 = .ok ∧
    ((process_transfers envC6 "v" "erc721").2.filter Effect.isActivity).length = 0 :=
  ⟨rfl, rfl⟩

/-- Witness for C6 (amended): a mint with an existing collection record
appends exactly one activity entry. -/
theorem activity_appends_per_processed_transfer_witness :
    ((process_transfers envC2 "v" "erc721").2.filter Effect.isActivity).length
      = if 0 = 0 ∧ collectionFound envC2 then 1 else 0 :=
  activity_appends_per_processed_transfer envC2 "v" "erc721" eventC2 0 2 1 0 [] rfl rfl rfl

/-- Claim C4 (amended): a failure while reconciling the collection's
descriptive fields is not absorbed — `process_transfers` unwraps it and
panics, aborting the event: the transfer-record write and the mint path never
run. -/
theorem descriptive_fields_failure_aborts (env : Env) (value ct : String)
    (event : EmittedEvent) (block : Json) (ts d0 d1 d2 d3 : Nat) (rest : List Nat)
    (hdec : env.decode value = some event)
    (hdata : event.data = d0 :: d1 :: d2 :: d3 :: rest)
    (hb : env.getBlock = .ok block)
    (hts : (block.get "timestamp").bind Json.asU64 = some ts)
    (hu : env.updateCollectionRes = .error ()) :
    (process_transfers env value ct).1 = .panicked ∧
    (process_transfers env value ct).2.any Effect.isTransferWrite = false ∧
    (process_transfers env value ct).2.any Effect.isGetCollection = false := by
  rw [process_transfers_run env value ct event block ts d0 d1 d2 d3 rest hdec hb hts hdata]
  simp only [processDecodedData_updErr env event ct ts d0 d1 d2 d3 hu]
  refine ⟨by simp, ?_, ?_⟩
  · have h1 := filter_get_token_uri_eq_nil env.contractProp (formatTokenId d2 d3).low
      (formatTokenId d2 d3).high Effect.isTransferWrite (fun _ _ => rfl)
    have h2 := filter_get_token_owner_eq_nil env.ownerCall d2 d3
      Effect.isTransferWrite (fun _ _ => rfl)
    have h3 := filter_update_additional_eq_nil env (fmtFelt event.from_address) ct
      Effect.isTransferWrite (fun _ _ => rfl) (fun _ _ _ _ => rfl)
    exact any_eq_false_of_filter_eq_nil
      (by simp [List.filter, List.filter_append, Effect.isTransferWrite, h1, h2, h3])
  · have h1 := filter_get_token_uri_eq_nil env.contractProp (formatTokenId d2 d3).low
      (formatTokenId d2 d3).high Effect.isGetCollection (fun _ _ => rfl)
    have h2 := filter_get_token_owner_eq_nil env.ownerCall d2 d3
      Effect.isGetCollection (fun _ _ => rfl)
    have h3 := filter_update_additional_eq_nil env (fmtFelt event.from_address) ct
      Effect.isGetCollection (fun _ _ => rfl) (fun _ _ _ _ => rfl)
    exact any_eq_false_of_filter_eq_nil
      (by simp [List.filter, List.filter_append, Effect.isGetCollection, h1, h2, h3])

/-- Counterexample for C4: with a failing descriptive-fields upsert the
processor panics and processing of the event does not continue (no
transfer-record write follows). -/
theorem collection_upsert_failure_panics :
    (process_transfers envC4 "v" "erc721").1 = .panicked ∧
    (process_transfers envC4 "v" "erc721").2.any Effect.isTransferWrite = false :=
  ⟨rfl, rfl⟩

/-- Witness for C4 (amended). -/
theorem descriptive_fields_failure_aborts_witness :
    (process_transfers envC4 "v" "erc721").1 = .panicked :=
  (descriptive_fields_failure_aborts envC4 "v" "erc721" eventC4
      (Json.obj [("timestamp", Json.num 1000)]) 1000 0 2 1 0 [] rfl rfl rfl rfl rfl).1

theorem processDecoded_fst_ne_errReturned (env : Env) (event : EmittedEvent)
    (ct : String) : (processDecoded env event ct).1 ≠ .errReturned := by
  unfold processDecoded
  split
  · simp
  · split
    · simp
    · split
      · simp only [processDecodedData, update_additional_collection_data]
        split
        · simp
        · split <;> simp
      · simp

/-- Claim C5 (amended): a block-header fetch failure aborts the event by a
panic (the `unwrap`), not by a returned error; the only failure class that
produces a returned error from the top-level entry point is a decode
failure. -/
theorem block_fetch_failure_panics_not_returns (env : Env) (value ct : String) :
    ((process_transfers env value ct).1 = .errReturned ↔ env.decode value = none) ∧
    (∀ event, env.decode value = some event → env.getBlock = .error () →
      (process_transfers env value ct).1 = .panicked) := by
  constructor
  · constructor
    · intro h
      cases hd : env.decode value with
      | none => rfl
      | some event =>
        simp only [process_transfers, hd] at h
        exact absurd h (processDecoded_fst_ne_errReturned env event ct)
    · intro h
      simp [process_transfers, h]
  · intro event hdec hb
    simp [process_transfers, hdec, processDecoded, hb]

/-- Counterexample for C5: the block-fetch failure ends in a panic, not in a
returned error as the claim states. -/
theorem block_fetch_failure_is_panic_not_error :
    (process_transfers envC5 "v" "erc721").1 = .panicked ∧
    ¬(process_transfers envC5 "v" "erc721").1 = .errReturned :=
  ⟨rfl, by decide⟩

/-- Witness for C5 (amended). -/
theorem block_fetch_failure_panics_not_returns_witness :
    (process_transfers envC5 "v" "erc721").1 = .panicked :=
  (block_fetch_failure_panics_not_returns envC5 "v" "erc721").2 eventC5 rfl rfl

theorem mintMetadataEffects_undefined (env : Env) (a : String) (td : TokenData)
    (tx : TransactionData) (h : td.token_uri = "undefined") :
    mintMetadataEffects env a td tx = [] := by
  simp [mintMetadataEffects, sanitize_uri, h]

/-- Claim C3 (amended): when the resolved URI is the unresolved sentinel
`"undefined"`, processing the mint issues no HTTP GET and also skips the
token-record write (which sits inside the metadata branch); the mint
`CollectionActivity` entry is still appended when the collection record
exists. -/
theorem unresolved_uri_skips_fetch_keeps_activity (env : Env) (a : String)
    (td : TokenData) (tx : TransactionData) (h : td.token_uri = "undefined") :
    (process_mint_event env a td tx).any Effect.isHttpGet = false ∧
    (process_mint_event env a td tx).any Effect.isUpdateToken = false ∧
    (∀ c, env.getCollectionRes = .ok (some c) →
      (process_mint_event env a td tx).filter Effect.isActivity ≠ []) := by
  have hm := mintMetadataEffects_undefined env a td tx h
  unfold process_mint_event
  rw [hm, List.append_nil]
  refine ⟨?_, ?_, fun c hc => ?_⟩
  · exact any_eq_false_of_filter_eq_nil
      (filter_mintCollectionEffects_eq_nil env a td tx Effect.isHttpGet
        (fun _ => rfl) (fun _ _ _ => rfl) (fun _ => rfl))
  · exact any_eq_false_of_filter_eq_nil
      (filter_mintCollectionEffects_eq_nil env a td tx Effect.isUpdateToken
        (fun _ => rfl) (fun _ _ _ => rfl) (fun _ => rfl))
  · unfold mintCollectionEffects
    rw [hc]
    simp [List.filter, List.filter_append, Effect.isActivity,
      filter_reconcileLatestMint_isActivity]

/-- Counterexample for C3: with the unresolved sentinel the metadata fetch is
indeed skipped, but the token-record write (`update_token`) is skipped with
it — no mint token record is created, contrary to the claim. -/
theorem unresolved_uri_token_record_not_created :
    (process_mint_event envC3 "0xcol" tdC3 txC3).any Effect.isUpdateToken = false ∧
    (process_mint_event envC3 "0xcol" tdC3 txC3).any Effect.isHttpGet = false :=
  ⟨rfl, rfl⟩

/-- Witness for C3 (amended). -/
theorem unresolved_uri_skips_fetch_keeps_activity_witness :
    (process_mint_event envC3 "0xcol" tdC3 txC3).any Effect.isHttpGet = false ∧
    (process_mint_event envC3 "0xcol" tdC3 txC3).filter Effect.isActivity ≠ [] :=
  ⟨(unresolved_uri_skips_fetch_keeps_activity envC3 "0xcol" tdC3 txC3 rfl).1,
   (unresolved_uri_skips_fetch_keeps_activity envC3 "0xcol" tdC3 txC3 rfl).2.2 [] rfl⟩

end ArkTransfer
